import Mathlib

/-!
Shallow embedding of `src/handlers/tbank.py` (class `TBankManager`): a
payment-processor client that initializes credentials from a settings store,
signs and posts JSON requests, creates payments and checks payment status.
Python values are modelled by the inductive type `Val`, Python dicts by
association lists in insertion order, and the effectful collaborators
(settings store, HTTP transport, notifier) by an explicit environment record;
exceptions are modelled by `Except`.
-/

namespace TBank

/-- Python runtime values that occur in the module: strings, ints, booleans,
`None`, and (string-keyed) dicts in insertion order. -/
inductive Val where
  | VStr (s : String)
  | VInt (n : Int)
  | VBool (b : Bool)
  | VNone
  | VDict (d : List (String × Val))
  deriving Repr

/-- Python truthiness (`bool(v)`): empty string/dict, `0`, `False` and `None`
are falsy, everything else truthy. -/
def Val.truthy : Val → Bool
  | .VStr s => !s.isEmpty
  | .VInt n => n != 0
  | .VBool b => b
  | .VNone => false
  | .VDict d => !d.isEmpty

/-- Escape one character the way Python `repr` renders it inside a string
literal quoted by `q` (covers the printable characters this module handles
plus the common control characters). -/
def pyEscChar (q : Char) (c : Char) : String :=
  if c = '\\' then "\\\\"
  else if c = q then "\\" ++ String.mk [q]
  else if c = '\n' then "\\n"
  else if c = '\t' then "\\t"
  else if c = '\x0d' then "\\r"
  else String.mk [c]

/-- Python `repr` of a string: single-quoted, unless the string contains a
single quote and no double quote, in which case it is double-quoted. -/
def pyStrLit (s : String) : String :=
  let q : Char := if s.contains '\'' && !(s.contains '"') then '"' else '\''
  String.mk [q] ++ String.join (s.data.map (pyEscChar q)) ++ String.mk [q]

mutual

/-- Python `repr(v)` for the values of `Val` (dicts render their items in
insertion order, as Python does). -/
def pyRepr : Val → String
  | .VStr s => pyStrLit s
  | .VInt n => toString n
  | .VBool b => if b then "True" else "False"
  | .VNone => "None"
  | .VDict d => "\x7b" ++ pyReprItems d ++ "\x7d"

/-- Renders the comma-separated items of a dict for `pyRepr`. -/
def pyReprItems : List (String × Val) → String
  | [] => ""
  | [(k, v)] => pyStrLit k ++ ": " ++ pyRepr v
  | (k, v) :: p :: t => pyStrLit k ++ ": " ++ pyRepr v ++ ", " ++ pyReprItems (p :: t)

end

/-- Python `str(v)`: identity on strings, `repr` otherwise (for the value
kinds occurring here, `str` and `repr` agree on non-strings). -/
def pyStr : Val → String
  | .VStr s => s
  | v => pyRepr v

/-- A Python dict with string keys, as an association list in insertion
order. -/
abbrev Dict := List (String × Val)

/-- Dict lookup (`d[k]` when present): the value at the first matching key. -/
def dfind : Dict → String → Option Val
  | [], _ => none
  | (k', v) :: t, k => if k' = k then some v else dfind t k

/-- Python `d.get(k)`: the value at `k`, or `None` when absent. -/
def pyGet (d : Dict) (k : String) : Val := (dfind d k).getD .VNone

/-- Python `d.get(k, dflt)`. -/
def pyGetD (d : Dict) (k : String) (dflt : Val) : Val := (dfind d k).getD dflt

/-- Python `d[k] = v`: replaces the value at an existing key in place,
otherwise appends the new pair at the end (dict insertion order). -/
def dictSet : Dict → String → Val → Dict
  | [], k, v => [(k, v)]
  | (k', v') :: t, k, v => if k' = k then (k, v) :: t else (k', v') :: dictSet t k v

/-- The keys of a dict, in insertion order. -/
def keys (d : Dict) : List String := d.map Prod.fst

/-- UTF-8 encoding of one character (Python `str.encode()`). -/
def utf8Char (c : Char) : List Nat :=
  let n := c.toNat
  if n < 128 then [n]
  else if n < 2048 then [192 ||| (n >>> 6), 128 ||| (n &&& 63)]
  else if n < 65536 then
    [224 ||| (n >>> 12), 128 ||| ((n >>> 6) &&& 63), 128 ||| (n &&& 63)]
  else
    [240 ||| (n >>> 18), 128 ||| ((n >>> 12) &&& 63),
     128 ||| ((n >>> 6) &&& 63), 128 ||| (n &&& 63)]

/-- UTF-8 encoding of a string as a byte list. -/
def utf8Bytes (s : String) : List Nat := (s.data.map utf8Char).flatten

/-! SHA-256 (FIPS 180-4), over byte lists, with 32-bit words as `Nat`
reduced modulo `2 ^ 32`. -/

/-- Reduce to a 32-bit word. -/
def w32 (n : Nat) : Nat := n % 4294967296

/-- Rotate a 32-bit word right by `k` bits. -/
def rotr32 (k x : Nat) : Nat := w32 ((x >>> k) ||| (x <<< (32 - k)))

/-- Bitwise complement of a 32-bit word. -/
def not32 (x : Nat) : Nat := x ^^^ 4294967295

/-- SHA-256 `Ch` function. -/
def shaCh (x y z : Nat) : Nat := (x &&& y) ^^^ (not32 x &&& z)

/-- SHA-256 `Maj` function. -/
def shaMaj (x y z : Nat) : Nat := (x &&& y) ^^^ (x &&& z) ^^^ (y &&& z)

/-- SHA-256 big sigma 0. -/
def sigmaBig0 (x : Nat) : Nat := rotr32 2 x ^^^ rotr32 13 x ^^^ rotr32 22 x

/-- SHA-256 big sigma 1. -/
def sigmaBig1 (x : Nat) : Nat := rotr32 6 x ^^^ rotr32 11 x ^^^ rotr32 25 x

/-- SHA-256 small sigma 0. -/
def sigmaSmall0 (x : Nat) : Nat := rotr32 7 x ^^^ rotr32 18 x ^^^ (x >>> 3)

/-- SHA-256 small sigma 1. -/
def sigmaSmall1 (x : Nat) : Nat := rotr32 17 x ^^^ rotr32 19 x ^^^ (x >>> 10)

/-- The 64 SHA-256 round constants. -/
def shaK : List Nat :=
  [1116352408, 1899447441, 3049323471, 3921009573, 961987163,
   1508970993, 2453635748, 2870763221, 3624381080, 310598401,
   607225278, 1426881987, 1925078388, 2162078206, 2614888103,
   3248222580, 3835390401, 4022224774, 264347078, 604807628,
   770255983, 1249150122, 1555081692, 1996064986, 2554220882,
   2821834349, 2952996808, 3210313671, 3336571891, 3584528711,
   113926993, 338241895, 666307205, 773529912, 1294757372,
   1396182291, 1695183700, 1986661051, 2177026350, 2456956037,
   2730485921, 2820302411, 3259730800, 3345764771, 3516065817,
   3600352804, 4094571909, 275423344, 430227734, 506948616,
   659060556, 883997877, 958139571, 1322822218, 1537002063,
   1747873779, 1955562222, 2024104815, 2227730452, 2361852424,
   2428436474, 2756734187, 3204031479, 3329325298]

/-- The SHA-256 initial hash value. -/
def shaH0 : List Nat :=
  [1779033703, 3144134277, 1013904242, 2773480762,
   1359893119, 2600822924, 528734635, 1541459225]

/-- Big-endian byte decomposition of `x` into `n` bytes. -/
def bytesBE (n x : Nat) : List Nat :=
  (List.range n).map (fun i => (x >>> (8 * (n - 1 - i))) % 256)

/-- SHA-256 message padding: append `0x80`, zero bytes, and the 64-bit
big-endian bit length, to a multiple of 64 bytes. -/
def shaPad (msg : List Nat) : List Nat :=
  let L := msg.length
  msg ++ [128] ++ List.replicate ((64 - ((L + 9) % 64)) % 64) 0 ++ bytesBE 8 (8 * L)

/-- The first 16 message-schedule words of a 64-byte chunk (big-endian). -/
def words16 (chunk : List Nat) : List Nat :=
  (List.range 16).map (fun i =>
    (chunk.getD (4 * i) 0) * 16777216 + (chunk.getD (4 * i + 1) 0) * 65536 +
    (chunk.getD (4 * i + 2) 0) * 256 + chunk.getD (4 * i + 3) 0)

/-- Extend the 16 schedule words to 64. -/
def msgSchedule (ws : List Nat) : List Nat :=
  (List.range 48).foldl
    (fun w _ =>
      w ++ [w32 (sigmaSmall1 (w.getD (w.length - 2) 0) + w.getD (w.length - 7) 0 +
                 sigmaSmall0 (w.getD (w.length - 15) 0) + w.getD (w.length - 16) 0)])
    ws

/-- One SHA-256 compression round: the state is the 8-word working vector. -/
def shaRound (st : List Nat) (kw : Nat × Nat) : List Nat :=
  let a := st.getD 0 0
  let b := st.getD 1 0
  let c := st.getD 2 0
  let d := st.getD 3 0
  let e := st.getD 4 0
  let f := st.getD 5 0
  let g := st.getD 6 0
  let h := st.getD 7 0
  let t1 := w32 (h + sigmaBig1 e + shaCh e f g + kw.1 + kw.2)
  let t2 := w32 (sigmaBig0 a + shaMaj a b c)
  [w32 (t1 + t2), a, b, c, w32 (d + t1), e, f, g]

/-- Process one 64-byte chunk into the running hash (8 words). -/
def shaChunk (h : List Nat) (chunk : List Nat) : List Nat :=
  let st := (shaK.zip (msgSchedule (words16 chunk))).foldl shaRound h
  (h.zip st).map (fun p => w32 (p.1 + p.2))

/-- Split a byte list into 64-byte chunks. -/
def chunks64 (l : List Nat) : List (List Nat) :=
  if l.isEmpty then [] else l.take 64 :: chunks64 (l.drop 64)
termination_by l.length
decreasing_by
  simp only [List.length_drop]
  cases l with
  | nil => simp [List.isEmpty] at *
  | cons a t => simp; omega

/-- SHA-256 digest of a byte list, as 32 bytes. -/
def sha256 (msg : List Nat) : List Nat :=
  (((chunks64 (shaPad msg)).foldl shaChunk shaH0).map (bytesBE 4)).flatten

/-- One lowercase hexadecimal digit. -/
def hexDigit (n : Nat) : Char :=
  if n < 10 then Char.ofNat (48 + n) else Char.ofNat (87 + n)

/-- Two lowercase hex digits of a byte. -/
def byteHex (b : Nat) : String := String.mk [hexDigit (b / 16), hexDigit (b % 16)]

/-- Concatenation of a list of strings (Python `"".join`). -/
def strJoin : List String → String
  | [] => ""
  | s :: t => s ++ strJoin t

/-- Python `hashlib.sha256(bytes).hexdigest()`: lowercase hex digest. -/
def sha256hex (msg : List Nat) : String := strJoin ((sha256 msg).map byteHex)

/-! The signing step of `TBankManager._post` (`_generate_token`). -/

/-- Sort dict items by key, ordinary lexical order (Python
`sorted(payload.items())`; keys of a dict are distinct, so the comparison
never reaches the values). -/
def sortItems (d : Dict) : Dict :=
  List.insertionSort (fun a b : String × Val => a.1 ≤ b.1) d

/-- The string whose hash is the token: the concatenation of `str(v)` for the
values of the payload in key-sorted order
(`"".join(str(v) for k, v in sorted_items)`). -/
def tokenConcat (d : Dict) : String := strJoin ((sortItems d).map (fun p => pyStr p.2))

/-- `TBankManager._post._generate_token`, applied as in the source to a copy
of the request payload: add the cached password under `"Password"`, sort the
items by key, concatenate the string forms of the values, and return the
lowercase-hex SHA-256 of the UTF-8 encoding of that concatenation. -/
def generate_token (password : Val) (payload : Dict) : String :=
  sha256hex (utf8Bytes (tokenConcat (dictSet payload "Password" password)))

/-! The `TBankManager` state, its collaborators, and the four operations. -/

/-- An exception raised by a collaborator (network, store, attribute or
index error); the module never inspects the exception beyond logging it. -/
inductive Err where
  | network
  | parse
  | attributeError
  | indexError
  | store
  deriving DecidableEq, Repr

/-- The mutable fields of `TBankManager` (`base_url` is the constant
`baseUrl` below). `__init__` sets `is_initialized = False` and both
credentials to `None`. -/
structure TBankState where
  is_initialized : Bool
  terminal_key : Val
  password : Val
  deriving Repr

/-- The state produced by `TBankManager.__init__`. -/
def initState : TBankState := ⟨false, .VNone, .VNone⟩

/-- `self.base_url`. -/
def baseUrl : String := "https://ecom.tinkoff.ru/api/v2/"

/-- Observable side effects: an HTTP POST of a JSON body to a URL, and a
notifier `send_message` call with a chat id and message text. -/
inductive Event where
  | httpPost (url : String) (body : Dict)
  | sendMessage (chatId : Val) (text : String)

/-- The behaviour of the external collaborators during one operation:
the settings store (`db.get_tbank_settings`, the `pay_notify` row), the
HTTP transport (URL and JSON body to parsed JSON response, or an
exception), and the nondeterministic inputs (`uuid.uuid4()`,
`datetime.now().strftime(...)`). -/
structure Env where
  get_tbank_settings : Except Err (Option (List Val))
  http : String → Dict → Except Err Dict
  pay_notify_row : Except Err (Option (List Val))
  uuid : String
  now_str : String

/-- `TBankManager.init_tbank`: reads the settings row; fails (returning
`false`, state unchanged) when the store raises, the row is absent or empty,
either credential field is absent (`IndexError`, swallowed by the
`except`) or falsy; otherwise caches both credentials and marks the client
initialized. -/
def init_tbank (env : Env) (s : TBankState) : TBankState × Bool :=
  match env.get_tbank_settings with
  | .error _ => (s, false)
  | .ok none => (s, false)
  | .ok (some row) =>
    if row.isEmpty then (s, false)
    else
      match row.get? 2 with
      | none => (s, false)
      | some v2 =>
        if !v2.truthy then (s, false)
        else
          match row.get? 3 with
          | none => (s, false)
          | some v3 =>
            if !v3.truthy then (s, false)
            else (⟨true, v2, v3⟩, true)

/-- The outcome of `TBankManager._post`: the state after the call, the
emitted events, the caller's payload mapping after the call (`_post`
mutates it in place), and the response — `none` models Python `None`
(initialization failed, no request sent), `error` a propagating
exception. -/
structure PostResult where
  state : TBankState
  events : List Event
  body : Dict
  response : Except Err (Option Dict)

/-- The caller's payload as it stands when the POST is issued: `_post` has
set `data["TerminalKey"]` to the cached terminal key and `data["Token"]` to
the token generated over a copy of the payload (which at that point already
holds `TerminalKey`). -/
def wireBody (s : TBankState) (data : Dict) : Dict :=
  dictSet (dictSet data "TerminalKey" s.terminal_key) "Token"
    (.VStr (generate_token s.password (dictSet data "TerminalKey" s.terminal_key)))

/-- The body of `TBankManager._post` after the initialization guard:
inject `TerminalKey` into the payload, compute the token on a copy of the
payload, inject it as `Token`, POST the JSON body, and return the parsed
response (a non-`Success` response is only logged, still returned). -/
def postBody (env : Env) (s : TBankState) (endpoint : String) (data : Dict) :
    PostResult :=
  match env.http (baseUrl ++ endpoint) (wireBody s data) with
  | .error e =>
    ⟨s, [.httpPost (baseUrl ++ endpoint) (wireBody s data)], wireBody s data, .error e⟩
  | .ok result =>
    ⟨s, [.httpPost (baseUrl ++ endpoint) (wireBody s data)], wireBody s data,
     .ok (some result)⟩

/-- `TBankManager._post`: if the client is not initialized and
`init_tbank` fails, return `None` without any HTTP request; otherwise run
the request body. -/
def post (env : Env) (s : TBankState) (endpoint : String) (data : Dict) :
    PostResult :=
  if s.is_initialized then postBody env s endpoint data
  else
    match init_tbank env s with
    | (s', true) => postBody env s' endpoint data
    | (s', false) => ⟨s', [], data, .ok none⟩

/-- Python `a or b` for `Val` (used for `username or "unknown"` and
`tariff_name or "none"`). -/
def pyOr (a b : Val) : Val := if a.truthy then a else b

/-- Python `int(q)` on a number: truncation toward zero. -/
def pyInt (q : ℚ) : Int := Int.sign q.num * (q.num.natAbs / q.den : Nat)

/-- The outcome of a public operation: resulting state, emitted events and
return value. -/
structure OpResult (α : Type) where
  state : TBankState
  events : List Event
  value : α

/-- The `Init` request payload built by `create_payment`: a fresh order id,
the amount in minor units via `int(amount * 100)`, the description,
`CustomerKey = str(user_id)`, the metadata sub-dict, and the fixed URLs. -/
def initPayload (env : Env) (amount : ℚ) (description : String)
    (user_id tariff_name username : Val) : Dict :=
  [("OrderId", .VStr env.uuid),
   ("Amount", .VInt (pyInt (amount * 100))),
   ("Description", .VStr description),
   ("CustomerKey", .VStr (pyStr user_id)),
   ("DATA", .VDict
     [("telegram_id", user_id),
      ("username", pyOr username (.VStr "unknown")),
      ("tariff_name", pyOr tariff_name (.VStr "none"))]),
   ("SuccessURL", .VStr "https://t.me/BURYAT_VPN_BOT"),
   ("FailURL", .VStr "https://t.me/BURYAT_VPN_BOT"),
   ("NotificationURL", .VStr "https://your-server.com/tbank/callback")]

/-- `TBankManager.create_payment`: builds the `Init` payload, posts it, and
returns `(PaymentId, PaymentURL)` when the response is truthy with a truthy
`Success` field, else `(None, None)`; every exception is caught and also
yields `(None, None)`. -/
def create_payment (env : Env) (s : TBankState) (amount : ℚ)
    (description : String) (user_id tariff_name username : Val) :
    OpResult (Val × Val) :=
  let r := post env s "Init" (initPayload env amount description user_id tariff_name username)
  match r.response with
  | .error _ => ⟨r.state, r.events, (.VNone, .VNone)⟩
  | .ok none => ⟨r.state, r.events, (.VNone, .VNone)⟩
  | .ok (some result) =>
    if (Val.VDict result).truthy && (pyGet result "Success").truthy then
      ⟨r.state, r.events, (pyGet result "PaymentId", pyGet result "PaymentURL")⟩
    else ⟨r.state, r.events, (.VNone, .VNone)⟩

/-- Python `v == s` against a string literal: true only for an equal
string. -/
def pyEqStr (v : Val) (s : String) : Bool :=
  match v with
  | .VStr s' => s' = s
  | _ => false

/-- Python `v != 0`: false exactly for `0` and `False` (and `True` equals
`1`). -/
def pyNeZero (v : Val) : Bool :=
  match v with
  | .VInt n => n != 0
  | .VBool b => b
  | _ => true

/-- Python `v.get(k, dflt)` on an arbitrary value: an `AttributeError`
unless `v` is a dict (used for `result.get('DATA', ...).get(...)`). -/
def pyValGetD (v : Val) (k : String) (dflt : Val) : Except Err Val :=
  match v with
  | .VDict d => .ok (pyGetD d k dflt)
  | _ => .error .attributeError

/-- The admin notification text built in `check_payment` (an f-string over
`result.get('OrderId')`, the tariff name and the current timestamp). -/
def messageText (orderId tariffName : Val) (now : String) : String :=
  "🎉 Новая подписка! 🏆\n<blockquote>👤 Пользователь: " ++ pyStr orderId ++
  "\n💳 Тариф: " ++ pyStr tariffName ++
  "\n📅 Дата активации: " ++ now ++
  "\n🚀 Подписка успешно оформлена!</blockquote>"

/-- Whether the `pay_notify` row enables notifications
(`notify_settings and notify_settings[0] != 0`). -/
def notifyEnabled : Option (List Val) → Bool
  | none => false
  | some [] => false
  | some (v :: _) => pyNeZero v

/-- `TBankManager.check_payment`: posts `GetState` with the payment id and
returns `true` exactly when the response is truthy with `Status` equal to
`"CONFIRMED"`; on confirmation it reads the `pay_notify` row and, when
enabled, builds the admin message (reading the tariff name from the
response `DATA`) and attempts `bot.send_message`, whose failure is
swallowed. Every exception in the operation (a propagating transport
error, the `result.get('Status')` attribute access on a `None` response in
the logging branch, a raising store read, or a malformed `DATA` field
during message construction) is caught and yields `false`. -/
def check_payment (env : Env) (s : TBankState) (payment_id : Val) :
    OpResult Bool :=
  let r := post env s "GetState" [("PaymentId", payment_id)]
  match r.response with
  | .error _ => ⟨r.state, r.events, false⟩
  | .ok none => ⟨r.state, r.events, false⟩
  | .ok (some result) =>
    if (Val.VDict result).truthy && pyEqStr (pyGet result "Status") "CONFIRMED" then
      match env.pay_notify_row with
      | .error _ => ⟨r.state, r.events, false⟩
      | .ok nrow =>
        if notifyEnabled nrow then
          match pyValGetD (pyGetD result "DATA" (.VDict [])) "tariff_name" (.VStr "N/A") with
          | .error _ => ⟨r.state, r.events, false⟩
          | .ok tariffName =>
            let chat := match nrow with | some (v :: _) => v | _ => .VNone
            ⟨r.state,
             r.events ++ [.sendMessage chat (messageText (pyGet result "OrderId") tariffName env.now_str)],
             true⟩
        else ⟨r.state, r.events, true⟩
    else ⟨r.state, r.events, false⟩

/-! Dictionary lemmas. -/

theorem dfind_dictSet_self (d : Dict) (k : String) (v : Val) :
    dfind (dictSet d k v) k = some v := by
  induction d with
  | nil => simp [dictSet, dfind]
  | cons p t ih =>
    by_cases h : p.1 = k
    · simp [dictSet, dfind, h]
    · simp [dictSet, dfind, h, ih]

theorem dfind_dictSet_ne (d : Dict) (k k' : String) (v : Val) (h : k' ≠ k) :
    dfind (dictSet d k v) k' = dfind d k' := by
  induction d with
  | nil => simp [dictSet, dfind, Ne.symm h]
  | cons p t ih =>
    obtain ⟨pk, pv⟩ := p
    by_cases hp : pk = k
    · subst hp
      simp [dictSet, dfind, Ne.symm h]
    · by_cases hp' : pk = k'
      · subst hp'
        simp [dictSet, dfind, hp]
      · simp [dictSet, dfind, hp, hp', ih]

theorem mem_keys_dictSet (d : Dict) (k k' : String) (v : Val) :
    k' ∈ keys (dictSet d k v) ↔ k' = k ∨ k' ∈ keys d := by
  induction d with
  | nil => simp [dictSet, keys]
  | cons p t ih =>
    obtain ⟨pk, pv⟩ := p
    by_cases hp : pk = k
    · subst hp
      simp [dictSet, keys]
    · simp only [dictSet, hp, if_false, keys, List.map_cons, List.mem_cons] at ih ⊢
      tauto

theorem nodup_keys_dictSet (d : Dict) (k : String) (v : Val)
    (h : (keys d).Nodup) : (keys (dictSet d k v)).Nodup := by
  induction d with
  | nil => simp [dictSet, keys]
  | cons p t ih =>
    obtain ⟨pk, pv⟩ := p
    by_cases hp : pk = k
    · subst hp
      simpa [dictSet, keys] using h
    · rw [show dictSet ((pk, pv) :: t) k v = (pk, pv) :: dictSet t k v from by
        simp [dictSet, hp]]
      rw [show keys ((pk, pv) :: dictSet t k v) = pk :: keys (dictSet t k v) from rfl]
      rw [show keys ((pk, pv) :: t) = pk :: keys t from rfl] at h
      rw [List.nodup_cons] at h ⊢
      refine ⟨fun hk => ?_, ih h.2⟩
      rcases (mem_keys_dictSet t k pk v).mp hk with h1 | h1
      · exact hp h1
      · exact h.1 h1

theorem dictSet_perm {l₁ l₂ : Dict} (k : String) (v : Val) (h : l₁.Perm l₂) :
    (keys l₁).Nodup → (dictSet l₁ k v).Perm (dictSet l₂ k v) := by
  induction h with
  | nil => intro _; exact List.Perm.refl _
  | cons x h ih =>
    intro hnd
    obtain ⟨xk, xv⟩ := x
    simp only [keys, List.map_cons, List.nodup_cons] at hnd
    by_cases hx : xk = k
    · subst hx
      simpa [dictSet] using h.cons (xk, v)
    · simpa [dictSet, hx] using (ih hnd.2).cons (xk, xv)
  | swap x y l =>
    intro hnd
    obtain ⟨xk, xv⟩ := x
    obtain ⟨yk, yv⟩ := y
    simp only [keys, List.map_cons, List.nodup_cons, List.mem_cons] at hnd
    have hyx : yk ≠ xk := fun hh => hnd.1 (Or.inl hh)
    by_cases hy : yk = k <;> by_cases hx : xk = k
    · exact absurd (hy.trans hx.symm) hyx
    · simpa [dictSet, hx, hy] using List.Perm.swap (xk, xv) (k, v) l
    · simpa [dictSet, hx, hy] using List.Perm.swap (k, v) (yk, yv) l
    · simpa [dictSet, hx, hy] using List.Perm.swap (xk, xv) (yk, yv) (dictSet l k v)
  | trans h₁ h₂ ih₁ ih₂ =>
    intro hnd
    refine (ih₁ hnd).trans (ih₂ ?_)
    exact ((h₁.map Prod.fst).nodup_iff).mp hnd

/-- Two association lists with distinct keys that are permutations of each
other (the same dict, different insertion order) sort to the same item
list. -/
theorem sortItems_eq_of_perm {d₁ d₂ : Dict} (h : d₁.Perm d₂)
    (hnd : (keys d₁).Nodup) : sortItems d₁ = sortItems d₂ := by
  haveI htot : IsTotal (String × Val) (fun a b => a.1 ≤ b.1) :=
    ⟨fun a b => le_total a.1 b.1⟩
  haveI htr : IsTrans (String × Val) (fun a b => a.1 ≤ b.1) :=
    ⟨fun _ _ _ hab hbc => le_trans hab hbc⟩
  haveI hanti : IsAntisymm (String × Val) (fun a b => a.1 < b.1) :=
    ⟨fun _ _ hab hba => absurd hba (lt_asymm hab)⟩
  have hperm : (sortItems d₁).Perm (sortItems d₂) :=
    (List.perm_insertionSort _ d₁).trans
      (h.trans (List.perm_insertionSort _ d₂).symm)
  have hs₁ : (sortItems d₁).Sorted (fun a b : String × Val => a.1 ≤ b.1) :=
    List.sorted_insertionSort _ d₁
  have hs₂ : (sortItems d₂).Sorted (fun a b : String × Val => a.1 ≤ b.1) :=
    List.sorted_insertionSort _ d₂
  have hnd₁ : ((sortItems d₁).map Prod.fst).Nodup :=
    (((List.perm_insertionSort _ d₁).map Prod.fst).nodup_iff).mpr hnd
  have hnd₂ : ((sortItems d₂).map Prod.fst).Nodup :=
    ((hperm.map Prod.fst).nodup_iff).mp hnd₁
  have hne₁ : (sortItems d₁).Pairwise (fun a b => a.1 ≠ b.1) :=
    List.pairwise_map.mp hnd₁
  have hne₂ : (sortItems d₂).Pairwise (fun a b => a.1 ≠ b.1) :=
    List.pairwise_map.mp hnd₂
  have hlt₁ : (sortItems d₁).Sorted (fun a b : String × Val => a.1 < b.1) :=
    (List.pairwise_and_iff.mpr ⟨hs₁, hne₁⟩).imp fun hab => lt_of_le_of_ne hab.1 hab.2
  have hlt₂ : (sortItems d₂).Sorted (fun a b : String × Val => a.1 < b.1) :=
    (List.pairwise_and_iff.mpr ⟨hs₂, hne₂⟩).imp fun hab => lt_of_le_of_ne hab.1 hab.2
  exact List.eq_of_perm_of_sorted hperm hlt₁ hlt₂

theorem mem_dictSet_self (d : Dict) (k : String) (v : Val) :
    (k, v) ∈ dictSet d k v := by
  induction d with
  | nil => simp [dictSet]
  | cons p t ih =>
    obtain ⟨pk, pv⟩ := p
    by_cases hp : pk = k
    · simp [dictSet, hp]
    · simp only [dictSet, hp, if_false, List.mem_cons]
      exact Or.inr ih

/-- The string form of any value of a dict appears inside the concatenation
of the string forms of all values of that dict. -/
theorem pyStr_mem_strJoin {p : String × Val} :
    ∀ {l : List (String × Val)}, p ∈ l →
      ∃ a b, strJoin (l.map (fun q => pyStr q.2)) = a ++ pyStr p.2 ++ b := by
  intro l h
  induction l with
  | nil => cases h
  | cons q t ih =>
    rcases List.mem_cons.mp h with h | h
    · subst h
      exact ⟨"", strJoin (t.map (fun q => pyStr q.2)), by
        simp [strJoin, String.append_assoc]⟩
    · obtain ⟨a, b, hab⟩ := ih h
      refine ⟨pyStr q.2 ++ a, b, ?_⟩
      simp [strJoin, hab, String.append_assoc]

/-- The string form of any value of a dict appears inside the token
concatenation for that dict. -/
theorem pyStr_mem_tokenConcat {d : Dict} {k : String} {v : Val}
    (h : (k, v) ∈ d) : ∃ a b, tokenConcat d = a ++ pyStr v ++ b := by
  have hs : (k, v) ∈ sortItems d := by
    unfold sortItems
    exact (List.mem_insertionSort _).mpr h
  exact pyStr_mem_strJoin hs

/-! Characterization of `post` on an initialized client. -/

theorem post_initialized (env : Env) (s : TBankState) (ep : String) (data : Dict)
    (hinit : s.is_initialized = true) :
    post env s ep data = postBody env s ep data := by
  simp [post, hinit]

theorem postBody_events (env : Env) (s : TBankState) (ep : String) (data : Dict) :
    (postBody env s ep data).events = [.httpPost (baseUrl ++ ep) (wireBody s data)]
    ∧ (postBody env s ep data).body = wireBody s data
    ∧ (postBody env s ep data).state = s := by
  unfold postBody
  cases env.http (baseUrl ++ ep) (wireBody s data) <;> exact ⟨rfl, rfl, rfl⟩

theorem post_of_http (env : Env) (s : TBankState) (ep : String)
    (data : Dict) (hinit : s.is_initialized = true) (R : Dict)
    (hhttp : ∀ u b, env.http u b = .ok R) :
    post env s ep data
      = ⟨s, [.httpPost (baseUrl ++ ep) (wireBody s data)], wireBody s data,
         .ok (some R)⟩ := by
  rw [post_initialized env s ep data hinit]
  unfold postBody
  rw [hhttp]

theorem post_of_http_error (env : Env) (s : TBankState) (ep : String)
    (data : Dict) (hinit : s.is_initialized = true) (e : Err)
    (hhttp : ∀ u b, env.http u b = .error e) :
    post env s ep data
      = ⟨s, [.httpPost (baseUrl ++ ep) (wireBody s data)], wireBody s data,
         .error e⟩ := by
  rw [post_initialized env s ep data hinit]
  unfold postBody
  rw [hhttp]

/-- C1: for every payload mapping (with the credentials fixed), the token
computed by the signing step of `_post` does not depend on the insertion
order of the payload's keys: any reordering (permutation) of a payload with
distinct keys yields the identical token, because the signing sorts the
key/value pairs by key before concatenating the string forms of the values
and hashing them. -/
theorem token_order_independent (pw : Val) (p₁ p₂ : Dict)
    (hperm : p₁.Perm p₂) (hnd : (keys p₁).Nodup) :
    generate_token pw p₁ = generate_token pw p₂ := by
  unfold generate_token tokenConcat
  rw [sortItems_eq_of_perm (dictSet_perm "Password" pw hperm hnd)
    (nodup_keys_dictSet p₁ "Password" pw hnd)]

theorem token_order_independent_witness :
    generate_token (.VStr "secret") [("b", .VInt 2), ("a", .VStr "x")]
      = generate_token (.VStr "secret") [("a", .VStr "x"), ("b", .VInt 2)] :=
  token_order_independent (Val.VStr "secret")
    [("b", Val.VInt 2), ("a", Val.VStr "x")]
    [("a", Val.VStr "x"), ("b", Val.VInt 2)]
    (List.Perm.swap ("a", Val.VStr "x") ("b", Val.VInt 2) [])
    (by decide)

/-- C2: on an initialized client, `_post` transmits the payload with
`TerminalKey` and `Token` attached and no `Password` field, while the hash
input of the token contains the string form of the cached password: the
POSTed body is exactly the mutated payload, `"Password"` is not among its
keys, and the token is the SHA-256 hex of a concatenation in which the
password's string form occurs. -/
theorem password_in_hash_never_in_body (env : Env) (s : TBankState)
    (ep : String) (data : Dict) (hinit : s.is_initialized = true)
    (hnp : "Password" ∉ keys data) :
    (post env s ep data).events
      = [.httpPost (baseUrl ++ ep) ((post env s ep data).body)]
    ∧ (post env s ep data).body = wireBody s data
    ∧ "Password" ∉ keys ((post env s ep data).body)
    ∧ dfind ((post env s ep data).body) "Token"
        = some (.VStr (sha256hex (utf8Bytes (tokenConcat
            (dictSet (dictSet data "TerminalKey" s.terminal_key) "Password" s.password)))))
    ∧ ∃ a b,
        tokenConcat (dictSet (dictSet data "TerminalKey" s.terminal_key) "Password" s.password)
          = a ++ pyStr s.password ++ b := by
  rw [post_initialized env s ep data hinit]
  obtain ⟨he, hb, _⟩ := postBody_events env s ep data
  refine ⟨by rw [he, hb], hb, ?_, ?_, ?_⟩
  · rw [hb]
    unfold wireBody
    intro hmem
    rcases (mem_keys_dictSet _ _ _ _).mp hmem with h | h
    · exact absurd h (by decide)
    · rcases (mem_keys_dictSet _ _ _ _).mp h with h' | h'
      · exact absurd h' (by decide)
      · exact hnp h'
  · rw [hb]
    unfold wireBody generate_token
    exact dfind_dictSet_self _ _ _
  · exact pyStr_mem_tokenConcat
      (mem_dictSet_self (dictSet data "TerminalKey" s.terminal_key) "Password" s.password)

theorem password_in_hash_never_in_body_witness :
    ((⟨true, .VStr "tkey", .VStr "pw"⟩ : TBankState).is_initialized = true)
    ∧ "Password" ∉ keys [("OrderId", Val.VStr "o1")]
    ∧ "Password" ∉ keys ((post ⟨.ok none, fun _ _ => .ok [], .ok none, "u", "t"⟩
        ⟨true, .VStr "tkey", .VStr "pw"⟩ "Init" [("OrderId", Val.VStr "o1")]).body) := by
  refine ⟨rfl, by decide, ?_⟩
  exact (password_in_hash_never_in_body ⟨.ok none, fun _ _ => .ok [], .ok none, "u", "t"⟩
    ⟨true, .VStr "tkey", .VStr "pw"⟩ "Init" [("OrderId", Val.VStr "o1")] rfl
    (by decide)).2.2.1

/-- C10: `_post` mutates the caller's payload mapping in place: on an
initialized client, the mapping after the call holds a `TerminalKey` field
equal to the cached terminal key and a `Token` field equal to the computed
signature, and it holds a `Password` field only if the caller's original
mapping already had one (none is ever added). -/
theorem post_mutates_caller_payload (env : Env) (s : TBankState)
    (ep : String) (data : Dict) (hinit : s.is_initialized = true) :
    dfind ((post env s ep data).body) "TerminalKey" = some s.terminal_key
    ∧ dfind ((post env s ep data).body) "Token"
        = some (.VStr (generate_token s.password (dictSet data "TerminalKey" s.terminal_key)))
    ∧ ("Password" ∈ keys ((post env s ep data).body) ↔ "Password" ∈ keys data) := by
  rw [post_initialized env s ep data hinit]
  obtain ⟨_, hb, _⟩ := postBody_events env s ep data
  rw [hb]
  unfold wireBody
  refine ⟨?_, dfind_dictSet_self _ _ _, ?_⟩
  · rw [dfind_dictSet_ne _ _ _ _ (by decide)]
    exact dfind_dictSet_self _ _ _
  · constructor
    · intro h
      rcases (mem_keys_dictSet _ _ _ _).mp h with h' | h'
      · exact absurd h' (by decide)
      · rcases (mem_keys_dictSet _ _ _ _).mp h' with h'' | h''
        · exact absurd h'' (by decide)
        · exact h''
    · intro h
      exact (mem_keys_dictSet _ _ _ _).mpr (Or.inr ((mem_keys_dictSet _ _ _ _).mpr (Or.inr h)))

/-- A dict response is falsy only when empty, and then `.get` yields `None`;
hence the guard `result and result.get(k)` collapses to the truthiness of
`result.get(k)`. -/
theorem vdict_truthy_and_get (R : Dict) (k : String) :
    ((Val.VDict R).truthy && (pyGet R k).truthy) = (pyGet R k).truthy := by
  cases R with
  | nil => simp [Val.truthy, pyGet, dfind]
  | cons p t => simp [Val.truthy]

/-- Same collapse for the guard `result and result.get(k) == s`. -/
theorem vdict_truthy_and_eqStr (R : Dict) (k s : String) :
    ((Val.VDict R).truthy && pyEqStr (pyGet R k) s) = pyEqStr (pyGet R k) s := by
  cases R with
  | nil => simp [Val.truthy, pyGet, dfind, pyEqStr]
  | cons p t => simp [Val.truthy]

/-- `create_payment` emits exactly the events of its `Init` post. -/
theorem create_payment_events (env : Env) (s : TBankState) (amount : ℚ)
    (description : String) (uid tn un : Val) :
    (create_payment env s amount description uid tn un).events
      = (post env s "Init" (initPayload env amount description uid tn un)).events := by
  unfold create_payment
  generalize post env s "Init" (initPayload env amount description uid tn un) = r
  rcases r with ⟨st, evs, body, resp⟩
  rcases resp with e | _ | R
  · rfl
  · rfl
  · dsimp only
    split <;> rfl

/-- C3: when the processor's `Init` response is a mapping `R`, the value
returned by `create_payment` is the pair of `R`'s `PaymentId` and
`PaymentURL` fields when `R`'s `Success` field is truthy, and `(None, None)`
otherwise. -/
theorem create_payment_success_pair (env : Env) (s : TBankState) (amount : ℚ)
    (description : String) (uid tn un : Val) (R : Dict)
    (hinit : s.is_initialized = true)
    (hhttp : ∀ u b, env.http u b = .ok R) :
    (create_payment env s amount description uid tn un).value
      = if (pyGet R "Success").truthy then (pyGet R "PaymentId", pyGet R "PaymentURL")
        else (.VNone, .VNone) := by
  have hr := post_of_http env s "Init"
    (initPayload env amount description uid tn un) hinit R hhttp
  unfold create_payment
  rw [hr]
  dsimp only
  rw [vdict_truthy_and_get]
  by_cases hs : (pyGet R "Success").truthy = true
  · simp [hs]
  · rw [Bool.not_eq_true] at hs
    simp [hs]

theorem create_payment_success_pair_witness :
    (create_payment
      ⟨.ok none, fun _ _ => .ok [("Success", .VBool true), ("PaymentId", .VStr "pid1"),
        ("PaymentURL", .VStr "https://pay/x")], .ok none, "u1", "t1"⟩
      ⟨true, .VStr "tk", .VStr "pw"⟩ 10 "d" .VNone .VNone .VNone).value
      = (.VStr "pid1", .VStr "https://pay/x")
    ∧ (create_payment
      ⟨.ok none, fun _ _ => .ok [("Success", .VBool false)], .ok none, "u1", "t1"⟩
      ⟨true, .VStr "tk", .VStr "pw"⟩ 10 "d" .VNone .VNone .VNone).value
      = (.VNone, .VNone) := by
  constructor
  · rw [create_payment_success_pair _ _ 10 "d" .VNone .VNone .VNone
      [("Success", .VBool true), ("PaymentId", .VStr "pid1"), ("PaymentURL", .VStr "https://pay/x")]
      rfl (fun _ _ => rfl)]
    simp [pyGet, dfind, Val.truthy]
  · rw [create_payment_success_pair _ _ 10 "d" .VNone .VNone .VNone
      [("Success", .VBool false)] rfl (fun _ _ => rfl)]
    simp [pyGet, dfind, Val.truthy]

/-- C8: on an initialized client, `create_payment` issues exactly one HTTP
POST, to the `Init` endpoint, and the posted payload's `Amount` field is the
decimal amount multiplied by 100 and truncated to an integer
(`int(amount * 100)`). -/
theorem create_payment_amount_minor_units (env : Env) (s : TBankState)
    (amount : ℚ) (description : String) (uid tn un : Val)
    (hinit : s.is_initialized = true) :
    (create_payment env s amount description uid tn un).events
      = [.httpPost (baseUrl ++ "Init")
          (wireBody s (initPayload env amount description uid tn un))]
    ∧ dfind (wireBody s (initPayload env amount description uid tn un)) "Amount"
      = some (.VInt (pyInt (amount * 100))) := by
  constructor
  · rw [create_payment_events, post_initialized _ _ _ _ hinit]
    exact (postBody_events _ _ _ _).1
  · unfold wireBody
    rw [dfind_dictSet_ne _ _ _ _ (by decide), dfind_dictSet_ne _ _ _ _ (by decide)]
    simp [initPayload, dfind]

theorem create_payment_amount_minor_units_witness :
    dfind (wireBody ⟨true, .VStr "tk", .VStr "pw"⟩
        (initPayload ⟨.ok none, fun _ _ => .ok [], .ok none, "u1", "t1"⟩ 10 "X"
          .VNone .VNone .VNone)) "Amount"
      = some (.VInt 1000) := by
  have h := (create_payment_amount_minor_units
    ⟨.ok none, fun _ _ => .ok [], .ok none, "u1", "t1"⟩
    ⟨true, .VStr "tk", .VStr "pw"⟩ 10 "X" .VNone .VNone .VNone rfl).2
  rw [h]
  have h2 : pyInt ((10 : ℚ) * 100) = 1000 := by
    norm_num [pyInt, Int.sign_eq_one_iff_pos]
  rw [h2]

theorem post_mutates_caller_payload_witness :
    dfind ((post ⟨.ok none, fun _ _ => .ok [], .ok none, "u", "t"⟩
        ⟨true, .VStr "tkey2", .VStr "pw2"⟩ "GetState" [("PaymentId", Val.VStr "p1")]).body)
      "TerminalKey" = some (.VStr "tkey2") :=
  (post_mutates_caller_payload ⟨.ok none, fun _ _ => .ok [], .ok none, "u", "t"⟩
    ⟨true, .VStr "tkey2", .VStr "pw2"⟩ "GetState" [("PaymentId", Val.VStr "p1")] rfl).1

/-- C4: `check_payment` returns `true` exactly when the processor's
`GetState` response has a `Status` field equal to the string `"CONFIRMED"`
(any other status yields `false`), and returns `false` when the transport
raises instead of producing a response; stated for collaborator behaviours
in which the notification-settings read returns normally and the response's
`DATA` field, when consulted, is a mapping. -/
theorem check_payment_confirmed_iff (env : Env) (s : TBankState) (pid : Val)
    (R : Dict) (nr : Option (List Val))
    (hrow : env.pay_notify_row = .ok nr)
    (hdata : ∃ d, pyGetD R "DATA" (.VDict []) = .VDict d) :
    (s.is_initialized = true → (∀ u b, env.http u b = .ok R) →
      (check_payment env s pid).value = pyEqStr (pyGet R "Status") "CONFIRMED")
    ∧ (s.is_initialized = true → ∀ e, (∀ u b, env.http u b = .error e) →
      (check_payment env s pid).value = false)
    ∧ (s.is_initialized = false → (init_tbank env s).2 = false →
      (check_payment env s pid).value = false) := by
  refine ⟨?_, ?_, ?_⟩
  · intro hinit hhttp
    have hr := post_of_http env s "GetState" [("PaymentId", pid)] hinit R hhttp
    unfold check_payment
    rw [hr]
    dsimp only
    rw [vdict_truthy_and_eqStr]
    by_cases hs : pyEqStr (pyGet R "Status") "CONFIRMED" = true
    · rw [hs, if_pos rfl, hrow]
      obtain ⟨d, hd⟩ := hdata
      dsimp only
      by_cases hn : notifyEnabled nr = true
      · simp [hn, hd, pyValGetD]
      · rw [Bool.not_eq_true] at hn
        simp [hn]
    · rw [Bool.not_eq_true] at hs
      simp [hs]
  · intro hinit e hhttp
    have hr := post_of_http_error env s "GetState" [("PaymentId", pid)] hinit e hhttp
    unfold check_payment
    rw [hr]
  · intro huninit hfail
    rcases hI : init_tbank env s with ⟨s', b⟩
    rw [hI] at hfail
    dsimp at hfail
    subst hfail
    unfold check_payment post
    rw [huninit, hI]
    simp

theorem check_payment_confirmed_iff_witness :
    (check_payment
      ⟨.ok none, fun _ _ => .ok [("Status", .VStr "CONFIRMED")], .ok (some [.VInt 0]),
        "u1", "t1"⟩
      ⟨true, .VStr "tk", .VStr "pw"⟩ (.VStr "p1")).value = true
    ∧ (check_payment
      ⟨.ok none, fun _ _ => .ok [("Status", .VStr "NEW")], .ok (some [.VInt 0]),
        "u1", "t1"⟩
      ⟨true, .VStr "tk", .VStr "pw"⟩ (.VStr "p1")).value = false
    ∧ (check_payment
      ⟨.ok none, fun _ _ => .ok [("Status", .VStr "REJECTED")], .ok (some [.VInt 0]),
        "u1", "t1"⟩
      ⟨true, .VStr "tk", .VStr "pw"⟩ (.VStr "p1")).value = false := by
  refine ⟨?_, ?_, ?_⟩
  · rw [(check_payment_confirmed_iff _ ⟨true, .VStr "tk", .VStr "pw"⟩ (.VStr "p1")
      [("Status", .VStr "CONFIRMED")] (some [.VInt 0]) rfl ⟨[], rfl⟩).1
      rfl (fun _ _ => rfl)]
    simp [pyGet, dfind, pyEqStr]
  · rw [(check_payment_confirmed_iff _ ⟨true, .VStr "tk", .VStr "pw"⟩ (.VStr "p1")
      [("Status", .VStr "NEW")] (some [.VInt 0]) rfl ⟨[], rfl⟩).1
      rfl (fun _ _ => rfl)]
    simp [pyGet, dfind, pyEqStr]
  · rw [(check_payment_confirmed_iff _ ⟨true, .VStr "tk", .VStr "pw"⟩ (.VStr "p1")
      [("Status", .VStr "REJECTED")] (some [.VInt 0]) rfl ⟨[], rfl⟩).1
      rfl (fun _ _ => rfl)]
    simp [pyGet, dfind, pyEqStr]

/-- C7: when the processor reports `CONFIRMED` but the notification target
read from the settings store is `0` or absent, `check_payment` still
returns `true` and emits no `send_message` call. -/
theorem confirmed_without_notifier (env : Env) (s : TBankState) (pid : Val)
    (R : Dict) (nr : Option (List Val))
    (hinit : s.is_initialized = true)
    (hhttp : ∀ u b, env.http u b = .ok R)
    (hst : pyGet R "Status" = .VStr "CONFIRMED")
    (hrow : env.pay_notify_row = .ok nr)
    (hoff : notifyEnabled nr = false) :
    (check_payment env s pid).value = true
    ∧ ∀ c t, Event.sendMessage c t ∉ (check_payment env s pid).events := by
  have hr := post_of_http env s "GetState" [("PaymentId", pid)] hinit R hhttp
  unfold check_payment
  rw [hr]
  dsimp only
  rw [vdict_truthy_and_eqStr, hst]
  rw [show pyEqStr (.VStr "CONFIRMED") "CONFIRMED" = true from rfl, if_pos rfl, hrow]
  dsimp only
  rw [hoff]
  exact ⟨rfl, fun c t h => by simp at h⟩

theorem confirmed_without_notifier_witness :
    (check_payment
      ⟨.ok none, fun _ _ => .ok [("Status", .VStr "CONFIRMED")], .ok (some [.VInt 0]),
        "u2", "t2"⟩
      ⟨true, .VStr "tk", .VStr "pw"⟩ (.VStr "p2")).value = true := by
  exact (confirmed_without_notifier _ ⟨true, .VStr "tk", .VStr "pw"⟩ (.VStr "p2")
    [("Status", .VStr "CONFIRMED")] (some [.VInt 0]) rfl (fun _ _ => rfl) rfl rfl rfl).1

/-- C5: neither public operation lets a collaborator exception escape: when
the transport raises on every request, `create_payment` returns
`(None, None)` and `check_payment` returns `false` (for any prior client
state), and when the notification-settings read raises, `check_payment`
returns `false` (for any transport behaviour). -/
theorem public_ops_never_raise (env : Env) (s : TBankState) (amount : ℚ)
    (description : String) (uid tn un pid : Val) :
    (∀ e, (∀ u b, env.http u b = .error e) →
      (create_payment env s amount description uid tn un).value = (.VNone, .VNone)
      ∧ (check_payment env s pid).value = false)
    ∧ (∀ e, env.pay_notify_row = .error e →
      (check_payment env s pid).value = false) := by
  constructor
  · intro e hhttp
    by_cases hi : s.is_initialized = true
    · rw [show (create_payment env s amount description uid tn un).value
          = (.VNone, .VNone) from by
        unfold create_payment
        rw [post_of_http_error env s "Init" _ hi e hhttp]]
      refine ⟨rfl, ?_⟩
      unfold check_payment
      rw [post_of_http_error env s "GetState" _ hi e hhttp]
    · rw [Bool.not_eq_true] at hi
      rcases hI : init_tbank env s with ⟨s', b⟩
      cases b
      · constructor
        · unfold create_payment post
          rw [hi, hI]
          simp
        · unfold check_payment post
          rw [hi, hI]
          simp
      · constructor
        · unfold create_payment post
          rw [hi, hI]
          simp [postBody, hhttp]
        · unfold check_payment post
          rw [hi, hI]
          simp [postBody, hhttp]
  · intro e hrow
    unfold check_payment
    rcases hP : post env s "GetState" [("PaymentId", pid)] with ⟨st, evs, body, resp⟩
    dsimp only
    rcases resp with e' | o
    · rfl
    · rcases o with _ | R
      · rfl
      · dsimp only
        by_cases hc : ((Val.VDict R).truthy && pyEqStr (pyGet R "Status") "CONFIRMED") = true
        · rw [hc, if_pos rfl, hrow]
        · rw [Bool.not_eq_true] at hc
          simp [hc]

theorem public_ops_never_raise_witness :
    (create_payment ⟨.ok none, fun _ _ => .error .network, .ok none, "u3", "t3"⟩
      ⟨true, .VStr "tk", .VStr "pw"⟩ 10 "d" .VNone .VNone .VNone).value = (.VNone, .VNone)
    ∧ (check_payment ⟨.ok none, fun _ _ => .error .network, .ok none, "u3", "t3"⟩
      ⟨true, .VStr "tk", .VStr "pw"⟩ (.VStr "p3")).value = false :=
  (public_ops_never_raise ⟨.ok none, fun _ _ => .error .network, .ok none, "u3", "t3"⟩
    ⟨true, .VStr "tk", .VStr "pw"⟩ 10 "d" .VNone .VNone .VNone (.VStr "p3")).1
    .network (fun _ _ => rfl)

/-- The guard under which `init_tbank` fails: the settings read raises, the
row is absent or empty, or either credential field (index 2 or 3) is absent
or falsy. -/
def tbankSettingsBad (x : Except Err (Option (List Val))) : Bool :=
  match x with
  | .error _ => true
  | .ok none => true
  | .ok (some row) =>
    row.isEmpty ||
      (match row.get? 2 with
       | none => true
       | some v2 =>
         !v2.truthy ||
           (match row.get? 3 with
            | none => true
            | some v3 => !v3.truthy))

/-- C6: with an uninitialized client whose initialization fails,
`create_payment` returns `(None, None)`, `check_payment` returns `false`,
and neither operation emits any event — in particular no HTTP request is
attempted. -/
theorem no_request_when_init_fails (env : Env) (s : TBankState) (amount : ℚ)
    (description : String) (uid tn un pid : Val)
    (huninit : s.is_initialized = false)
    (hfail : (init_tbank env s).2 = false) :
    (create_payment env s amount description uid tn un).value = (.VNone, .VNone)
    ∧ (create_payment env s amount description uid tn un).events = []
    ∧ (check_payment env s pid).value = false
    ∧ (check_payment env s pid).events = [] := by
  rcases hI : init_tbank env s with ⟨s', b⟩
  rw [hI] at hfail
  dsimp at hfail
  subst hfail
  refine ⟨?_, ?_, ?_, ?_⟩ <;>
    first
    | (unfold create_payment post
       rw [huninit, hI]
       simp)
    | (unfold check_payment post
       rw [huninit, hI]
       simp)

theorem no_request_when_init_fails_witness :
    (init_tbank ⟨.ok none, fun _ _ => .ok [], .ok none, "u4", "t4"⟩ initState).2 = false
    ∧ (create_payment ⟨.ok none, fun _ _ => .ok [], .ok none, "u4", "t4"⟩
        initState 10 "d" .VNone .VNone .VNone).events = []
    ∧ (check_payment ⟨.ok none, fun _ _ => .ok [], .ok none, "u4", "t4"⟩
        initState (.VStr "p4")).events = [] := by
  refine ⟨rfl, ?_, ?_⟩
  · exact (no_request_when_init_fails ⟨.ok none, fun _ _ => .ok [], .ok none, "u4", "t4"⟩
      initState 10 "d" .VNone .VNone .VNone (.VStr "p4") rfl rfl).2.1
  · exact (no_request_when_init_fails ⟨.ok none, fun _ _ => .ok [], .ok none, "u4", "t4"⟩
      initState 10 "d" .VNone .VNone .VNone (.VStr "p4") rfl rfl).2.2.2

/-- C9 counterexample: a failing re-initialization does not leave the client
uninitialized when a previous initialization had succeeded — with the store
now returning no row, `init_tbank` returns `false` yet the state still has
`is_initialized = true` (the cached credentials are kept, not cleared). -/
theorem init_fail_keeps_initialized_counterexample :
    (init_tbank ⟨.ok none, fun _ _ => .error .network, .ok none, "u5", "t5"⟩
      ⟨true, .VStr "tk_old", .VStr "pw_old"⟩).2 = false
    ∧ (init_tbank ⟨.ok none, fun _ _ => .error .network, .ok none, "u5", "t5"⟩
      ⟨true, .VStr "tk_old", .VStr "pw_old"⟩).1.is_initialized = true :=
  ⟨rfl, rfl⟩

/-- C9 (amended): whenever the settings store has no row, raises, or either
credential field is empty or absent, `init_tbank` returns `false` and leaves
the client state exactly unchanged — an uninitialized client stays
uninitialized, but a previously initialized client keeps its initialized
flag and cached credentials. -/
theorem init_tbank_bad_settings_unchanged (env : Env) (s : TBankState)
    (h : tbankSettingsBad env.get_tbank_settings = true) :
    init_tbank env s = (s, false) := by
  unfold tbankSettingsBad at h
  unfold init_tbank
  rcases hg : env.get_tbank_settings with e | o
  · rfl
  · rw [hg] at h
    rcases o with _ | row
    · rfl
    · dsimp only at h ⊢
      by_cases hE : row.isEmpty = true
      · simp [hE]
      · rw [Bool.not_eq_true] at hE
        rw [hE] at h
        simp only [Bool.false_or] at h
        rw [if_neg (by simp [hE])]
        rcases h2 : row.get? 2 with _ | v2
        · rfl
        · rw [h2] at h
          dsimp only at h ⊢
          by_cases hT : v2.truthy = true
          · rw [hT] at h
            simp only [Bool.not_true, Bool.false_or] at h
            rw [if_neg (by simp [hT])]
            rcases h3 : row.get? 3 with _ | v3
            · rfl
            · rw [h3] at h
              dsimp only at h ⊢
              rw [if_pos h]
          · rw [Bool.not_eq_true] at hT
            rw [if_pos (by simp [hT])]

theorem init_tbank_bad_settings_unchanged_witness :
    init_tbank ⟨.ok (some [.VNone, .VNone, .VStr "", .VStr "pw"]),
        fun _ _ => .ok [], .ok none, "u6", "t6"⟩
      ⟨true, .VStr "tk_old", .VStr "pw_old"⟩
      = (⟨true, .VStr "tk_old", .VStr "pw_old"⟩, false) :=
  init_tbank_bad_settings_unchanged _ _ rfl

end TBank
